import Mathlib

/-!
Shallow embedding of the CelebA BigGAN training orchestrator, function `run`
in `src/examples/celeba/train.py`.

The embedding covers:
* the derived-configuration resolution phase (lines 51-62): dictionary lookups
  for resolution / class count / activation functions, the resume flag, and the
  two `assert ... % num_devices == 0` checks;
* creation of the state dictionary (lines 111-112) and the derived batch sizes
  (lines 144-145 and 160);
* the training loop (lines 175-231), modelled as a state transformer that also
  emits a trace of the observable actions of each inner iteration (iteration
  increment, training-step invocation, log writes, save and test triggers).

The lookup tables `utils.imsize_dict`, `utils.nclass_dict` and
`utils.activation_dict` live in `utils.py`, which is not part of this
repository snapshot; they are taken as parameters, and concrete sample tables
are modelled from the spec where concrete evaluation is needed.
-/

namespace CelebaTrain

/-- The configuration fields of `run` that the modelled phases read.
Numeric fields are natural numbers (the source uses Python ints),
identifiers are strings, flags are booleans. -/
structure Config where
  dataset : String
  G_nl : String
  D_nl : String
  resume : Bool
  skip_init : Bool
  save_every : Nat
  test_every : Nat
  num_devices : Nat
  batch_size : Nat
  num_D_steps : Nat
  num_D_accumulations : Nat
  G_batch_size : Nat
  total_steps : Nat
  sv_log_interval : Nat
deriving DecidableEq, Repr

/-- The state dictionary fields, from train.py line 111:
`state_dict = {'itr': 0, 'save_num': 0, 'save_best_num': 0, 'best_IS': 0,
'best_FID': 999999, 'config': config}`.  The `config` snapshot entry is
carried separately in `Prepared` and omitted from this record. -/
structure StateDict where
  itr : Nat
  save_num : Nat
  save_best_num : Nat
  best_IS : Nat
  best_FID : Nat
deriving DecidableEq, Repr

/-- The fresh state dictionary of train.py line 111. -/
def initStateDict : StateDict :=
  { itr := 0, save_num := 0, save_best_num := 0, best_IS := 0, best_FID := 999999 }

/-- Errors `run` can raise before the training loop starts: a failed
dictionary lookup at lines 51-54 (`KeyError` in Python, the spec's
`ConfigError`), a failed `assert` at lines 61-62, and Python's
`ZeroDivisionError` raised by `% 0` inside those asserts. -/
inductive RunError where
  | configError
  | assertionError
  | zeroDivisionError
deriving DecidableEq, Repr

/-- The result of the pre-loop phase of `run`: the derived configuration
values, the (possibly resume-updated) configuration, the initial state
dictionary, the discriminator batch size passed to the data loader
(line 144, passed as `batch_size` to `utils.get_data_loaders` at line 147),
and the generator sampling batch size (line 160). -/
structure Prepared where
  resolution : Nat
  n_classes : Nat
  cfg : Config
  state_dict : StateDict
  D_batch_size : Nat
  G_batch_size : Nat
deriving DecidableEq, Repr

/-- The pre-loop phase of `run` (train.py lines 51-171), in source order:
lookups in `imsize_dict`, `nclass_dict`, `activation_dict` (lines 51-54,
each raising on an unrecognized key), the resume-implies-`skip_init` update
(lines 56-58), the two asserts (lines 61-62, with Python's `x % 0`
raising `ZeroDivisionError`), state-dictionary creation (line 111) and the
resume-time load of a stored state dictionary (line 117, whose stored value
is the parameter `loaded`), the loader batch size (lines 144-148), and the
generator sampling batch size (line 160).  The lookup tables are parameters
because `utils.py` is outside this repository snapshot. -/
def runPrelude (imsize : String → Option Nat) (nclass : String → Option Nat)
    (activation : String → Option Unit) (loaded : StateDict) (cfg : Config) :
    Except RunError Prepared :=
  match imsize cfg.dataset with
  | none => .error .configError
  | some resolution =>
    match nclass cfg.dataset with
    | none => .error .configError
    | some n_classes =>
      match activation cfg.G_nl with
      | none => .error .configError
      | some _ =>
        match activation cfg.D_nl with
        | none => .error .configError
        | some _ =>
          let cfg := if cfg.resume then { cfg with skip_init := true } else cfg
          if cfg.num_devices = 0 then .error .zeroDivisionError
          else if cfg.save_every % cfg.num_devices ≠ 0 then .error .assertionError
          else if cfg.test_every % cfg.num_devices ≠ 0 then .error .assertionError
          else
            let state_dict := if cfg.resume then loaded else initStateDict
            let D_batch_size := cfg.batch_size * cfg.num_D_steps * cfg.num_D_accumulations
            let G_batch_size := max cfg.G_batch_size cfg.batch_size
            .ok { resolution := resolution, n_classes := n_classes, cfg := cfg,
                  state_dict := state_dict, D_batch_size := D_batch_size,
                  G_batch_size := G_batch_size }

/-- Observable actions of one inner iteration of the training loop, each
tagged with the value of `state_dict['itr']` at the moment it happens:
the counter increment (line 182), the training-step call (line 194), the
training-log metric write (line 198), the singular-value log write
(line 202), the save trigger (line 215) and the test trigger (line 226). -/
inductive Event where
  | incItr (itr : Nat)
  | trainStep (itr : Nat)
  | logTrain (itr : Nat)
  | logSV (itr : Nat)
  | save (itr : Nat)
  | test (itr : Nat)
deriving DecidableEq, Repr

/-- One inner iteration of the training loop body (train.py lines 178-227),
in source order: increment `state_dict['itr']` by `num_devices` (line 182),
invoke the training step function (line 194), write to the training log when
this process is the master ordinal (lines 196-198), write singular values when
`sv_log_interval > 0`, the counter is a multiple of it and the process is the
master ordinal (lines 201-203), trigger save-and-sample when the counter is a
multiple of `save_every` (lines 209-215), and trigger the test when the counter
is a multiple of `test_every` (lines 218-227).  `master` is the value of
`xm.is_master_ordinal()` for this process. -/
def innerBody (cfg : Config) (master : Bool) (st : StateDict) : StateDict × List Event :=
  let st' : StateDict := { st with itr := st.itr + cfg.num_devices }
  let evs1 : List Event := [.incItr st'.itr, .trainStep st'.itr]
  let evs2 : List Event := if master then [.logTrain st'.itr] else []
  let evs3 : List Event :=
    if 0 < cfg.sv_log_interval ∧ st'.itr % cfg.sv_log_interval = 0 ∧ master = true
    then [.logSV st'.itr] else []
  let evs4 : List Event := if st'.itr % cfg.save_every = 0 then [.save st'.itr] else []
  let evs5 : List Event := if st'.itr % cfg.test_every = 0 then [.test st'.itr] else []
  (st', evs1 ++ evs2 ++ evs3 ++ evs4 ++ evs5)

/-- The training loop of `run` (train.py lines 175-231), flattened: the inner
`for` loop breaks exactly when `itr >= total_steps` (line 229), and the outer
`while` (line 175) re-enters with a fresh loader otherwise, so the combined
effect is to execute the inner body while `itr < total_steps`.  The guard
additionally requires `0 < num_devices`: with `num_devices = 0` the source
loop never terminates, which a total function cannot model, so that case
exits immediately here (no claim depends on it; the prelude already raises
`ZeroDivisionError` before the loop when `num_devices = 0`). -/
def runLoop (cfg : Config) (master : Bool) (st : StateDict) : StateDict × List Event :=
  if _h : st.itr < cfg.total_steps ∧ 0 < cfg.num_devices then
    let p := innerBody cfg master st
    let q := runLoop cfg master p.1
    (q.1, p.2 ++ q.2)
  else
    (st, [])
termination_by cfg.total_steps - st.itr
decreasing_by
  simp only [innerBody]
  omega

/-- The whole of `run`: the pre-loop phase followed by the training loop,
returning the final state dictionary and the trace of loop actions, or the
error the pre-loop phase raised. -/
def run (imsize : String → Option Nat) (nclass : String → Option Nat)
    (activation : String → Option Unit) (loaded : StateDict) (master : Bool)
    (cfg : Config) : Except RunError (StateDict × List Event) :=
  match runPrelude imsize nclass activation loaded cfg with
  | .error e => .error e
  | .ok p => .ok (runLoop p.cfg master p.state_dict)

/-- The iteration-counter value an event carries, for counter-increment
events only. -/
def itrValue : Event → Option Nat
  | .incItr n => some n
  | _ => none

/-- The successive values taken by `state_dict['itr']` along a trace. -/
def itrValues (evs : List Event) : List Nat :=
  evs.filterMap itrValue

/-- Whether an event is a training-step invocation. -/
def isTrainStep : Event → Bool
  | .trainStep _ => true
  | _ => false

/-- The number of training-step invocations in a trace, i.e. the number of
inner iterations the loop performed. -/
def countTrainSteps (evs : List Event) : Nat :=
  (evs.filter isTrainStep).length

/-- Modelled from the spec: `utils.imsize_dict` (train.py line 51) maps each
recognized dataset identifier to its image resolution; `utils.py` is not in
this repository snapshot.  A sample table recognizing the CelebA dataset. -/
def imsizeTable : String → Option Nat
  | "celeba" => some 64
  | _ => none

/-- Modelled from the spec: `utils.nclass_dict` (train.py line 52) maps each
recognized dataset identifier to its class count; `utils.py` is not in this
repository snapshot.  A sample table recognizing the CelebA dataset. -/
def nclassTable : String → Option Nat
  | "celeba" => some 1
  | _ => none

/-- Modelled from the spec: `utils.activation_dict` (train.py lines 53-54)
maps each recognized nonlinearity identifier to an activation module;
`utils.py` is not in this repository snapshot.  A sample table recognizing
one identifier. -/
def activationTable : String → Option Unit
  | "relu" => some ()
  | _ => none

/-- A sample fresh-run configuration with every identifier recognized by the
sample tables, `total_steps = 10` and `num_devices = 4` (the concrete test of
spec section 8), and intervals that are multiples of `num_devices`. -/
def cfgFresh : Config :=
  { dataset := "celeba", G_nl := "relu", D_nl := "relu", resume := false,
    skip_init := false, save_every := 8, test_every := 8, num_devices := 4,
    batch_size := 16, num_D_steps := 2, num_D_accumulations := 3,
    G_batch_size := 8, total_steps := 10, sv_log_interval := 4 }

/-- The value `runPrelude` produces on `cfgFresh` with the sample tables:
resolution 64, one class, the untouched configuration, the fresh state
dictionary, loader batch size `16 * 2 * 3 = 96`, sampling batch size
`max 8 16 = 16`. -/
def preparedFresh : Prepared :=
  { resolution := 64, n_classes := 1, cfg := cfgFresh, state_dict := initStateDict,
    D_batch_size := 96, G_batch_size := 16 }

/-- The best-FID bookmark of the state dictionary a successful pre-loop phase
produces, `none` when the pre-loop phase raised an error. -/
def preludeBestFID : Except RunError Prepared → Option Nat
  | .ok p => some p.state_dict.best_FID
  | .error _ => none

/-- A configuration whose dataset identifier the sample tables do not
recognize. -/
def cfgBadDataset : Config :=
  { cfgFresh with dataset := "imagenet" }

/-- A configuration whose dataset identifier is unrecognized and whose
`save_every` (10) is not a multiple of `num_devices` (4). -/
def cfgBadBoth : Config :=
  { cfgFresh with dataset := "imagenet", save_every := 10 }

/-- A configuration with `num_devices = 0` and `save_every = 5`, which is not
a multiple of 0 (the only multiple of 0 is 0). -/
def cfgZeroDev : Config :=
  { cfgFresh with num_devices := 0, save_every := 5 }

/-- A configuration with recognized identifiers whose `save_every` (10) is not
a multiple of `num_devices` (4). -/
def cfgAssertBad : Config :=
  { cfgFresh with save_every := 10 }


/-! ### General lemmas about the training loop -/

/-- An induction principle following the recursion structure of `runLoop`. -/
theorem runLoop_rec (cfg : Config) (master : Bool)
    (P : StateDict → StateDict × List Event → Prop)
    (base : ∀ st : StateDict, ¬(st.itr < cfg.total_steps ∧ 0 < cfg.num_devices) →
      P st (st, []))
    (step : ∀ st : StateDict, st.itr < cfg.total_steps → 0 < cfg.num_devices →
      P (innerBody cfg master st).1 (runLoop cfg master (innerBody cfg master st).1) →
      P st ((runLoop cfg master (innerBody cfg master st).1).1,
            (innerBody cfg master st).2 ++ (runLoop cfg master (innerBody cfg master st).1).2)) :
    ∀ st : StateDict, P st (runLoop cfg master st) := fun st =>
  if h : st.itr < cfg.total_steps ∧ 0 < cfg.num_devices then by
    rw [runLoop, dif_pos h]
    exact step st h.1 h.2 (runLoop_rec cfg master P base step (innerBody cfg master st).1)
  else by
    rw [runLoop, dif_neg h]
    exact base st h
termination_by st => cfg.total_steps - st.itr
decreasing_by
  simp only [innerBody]
  omega

/-- The inner body updates the state only by bumping the iteration counter. -/
theorem innerBody_fst (cfg : Config) (master : Bool) (st : StateDict) :
    (innerBody cfg master st).1 = { st with itr := st.itr + cfg.num_devices } := rfl

/-- The inner body advances the iteration counter by exactly `num_devices`. -/
theorem innerBody_fst_itr (cfg : Config) (master : Bool) (st : StateDict) :
    (innerBody cfg master st).1.itr = st.itr + cfg.num_devices := rfl

/-- When the guard fails the loop performs no iteration. -/
theorem runLoop_exit (cfg : Config) (master : Bool) (st : StateDict)
    (h : ¬(st.itr < cfg.total_steps ∧ 0 < cfg.num_devices)) :
    runLoop cfg master st = (st, []) := by
  rw [runLoop, dif_neg h]

/-- The loop preserves the iteration counter's residue modulo `num_devices`. -/
theorem runLoop_itr_mod (cfg : Config) (master : Bool) (st : StateDict) :
    (runLoop cfg master st).1.itr % cfg.num_devices = st.itr % cfg.num_devices := by
  refine runLoop_rec cfg master
    (fun s out => out.1.itr % cfg.num_devices = s.itr % cfg.num_devices) ?_ ?_ st
  · intro s _
    rfl
  · intro s _ _ ih
    simpa [innerBody_fst_itr, Nat.add_mod_right] using ih

/-- With at least one device, the loop either reaches `total_steps` or was
never entered because the counter already reached it. -/
theorem runLoop_itr_ge (cfg : Config) (master : Bool) (st : StateDict)
    (hd : 0 < cfg.num_devices) :
    cfg.total_steps ≤ (runLoop cfg master st).1.itr ∨
      ((runLoop cfg master st).1 = st ∧ ¬ st.itr < cfg.total_steps) := by
  refine runLoop_rec cfg master
    (fun s out => cfg.total_steps ≤ out.1.itr ∨ (out.1 = s ∧ ¬ s.itr < cfg.total_steps)) ?_ ?_ st
  · intro s hneg
    exact Or.inr ⟨rfl, fun hlt => hneg ⟨hlt, hd⟩⟩
  · intro s _ _ ih
    dsimp only
    rcases ih with h | ⟨heq, hnlt⟩
    · exact Or.inl h
    · rw [heq]
      rw [innerBody_fst_itr] at hnlt ⊢
      exact Or.inl (by omega)

/-- The loop never decreases the iteration counter. -/
theorem runLoop_itr_mono (cfg : Config) (master : Bool) (st : StateDict) :
    st.itr ≤ (runLoop cfg master st).1.itr := by
  refine runLoop_rec cfg master (fun s out => s.itr ≤ out.1.itr) ?_ ?_ st
  · intro s _
    exact Nat.le_refl _
  · intro s _ _ ih
    dsimp only
    rw [innerBody_fst_itr] at ih
    omega

/-- The loop's final counter does not overshoot any value that is reachable
from the start counter in steps of `num_devices` and already meets
`total_steps`. -/
theorem runLoop_itr_min (cfg : Config) (master : Bool) (st : StateDict) :
    ∀ m : Nat, st.itr ≤ m → cfg.num_devices ∣ (m - st.itr) → cfg.total_steps ≤ m →
      (runLoop cfg master st).1.itr ≤ m := by
  refine runLoop_rec cfg master
    (fun s out => ∀ m : Nat, s.itr ≤ m → cfg.num_devices ∣ (m - s.itr) → cfg.total_steps ≤ m →
      out.1.itr ≤ m) ?_ ?_ st
  · intro s _ m hm _ _
    exact hm
  · intro s hlt hd ih m hm hdvd htot
    have hpos : 0 < m - s.itr := by omega
    have hge : cfg.num_devices ≤ m - s.itr := Nat.le_of_dvd hpos hdvd
    have hm' : (innerBody cfg master s).1.itr ≤ m := by
      rw [innerBody_fst_itr]
      omega
    have hdvd' : cfg.num_devices ∣ (m - (innerBody cfg master s).1.itr) := by
      rw [innerBody_fst_itr, Nat.sub_add_eq]
      exact Nat.dvd_sub' hdvd dvd_rfl
    exact ih m hm' hdvd' htot

/-- The only counter value recorded along one inner body is the incremented
one. -/
theorem itrValues_innerBody (cfg : Config) (master : Bool) (st : StateDict) :
    itrValues (innerBody cfg master st).2 = [st.itr + cfg.num_devices] := by
  simp only [innerBody, itrValues]
  split_ifs <;> simp [itrValue]

/-- Each inner body invokes the training step function exactly once. -/
theorem countTrainSteps_innerBody (cfg : Config) (master : Bool) (st : StateDict) :
    countTrainSteps (innerBody cfg master st).2 = 1 := by
  simp only [innerBody, countTrainSteps]
  split_ifs <;> simp [isTrainStep]

/-- Along the whole loop, each successive counter value is the previous one
plus `num_devices`. -/
theorem runLoop_chain (cfg : Config) (master : Bool) (st : StateDict) :
    List.Chain' (fun a c => c = a + cfg.num_devices)
      (st.itr :: itrValues (runLoop cfg master st).2) := by
  refine runLoop_rec cfg master
    (fun s out => List.Chain' (fun a c => c = a + cfg.num_devices)
      (s.itr :: itrValues out.2)) ?_ ?_ st
  · intro s _
    simp [itrValues]
  · intro s _ _ ih
    rw [innerBody_fst_itr] at ih
    simp only [itrValues, List.filterMap_append] at ih ⊢
    rw [show (innerBody cfg master s).2.filterMap itrValue = [s.itr + cfg.num_devices] from
      itrValues_innerBody cfg master s]
    exact List.chain'_cons.mpr ⟨rfl, ih⟩

/-- Training-step counts add across trace concatenation. -/
theorem countTrainSteps_append (l1 l2 : List Event) :
    countTrainSteps (l1 ++ l2) = countTrainSteps l1 + countTrainSteps l2 := by
  simp [countTrainSteps, List.filter_append]

/-- The final counter equals the start counter plus `num_devices` times the
number of inner iterations performed. -/
theorem runLoop_itr_count (cfg : Config) (master : Bool) (st : StateDict) :
    (runLoop cfg master st).1.itr =
      st.itr + cfg.num_devices * countTrainSteps (runLoop cfg master st).2 := by
  refine runLoop_rec cfg master
    (fun s out => out.1.itr = s.itr + cfg.num_devices * countTrainSteps out.2) ?_ ?_ st
  · intro s _
    simp [countTrainSteps]
  · intro s _ _ ih
    rw [innerBody_fst_itr] at ih
    rw [countTrainSteps_append, countTrainSteps_innerBody, ih]
    ring


/-! ### Claims -/

/-- C1: for every configuration with `total_steps > 0` and `num_devices > 0`,
the training loop started fresh terminates with the iteration counter equal to
the least multiple of `num_devices` that is at least `total_steps`; in
particular with `total_steps = 10` and `num_devices = 4` it terminates with
counter 12 after exactly 3 inner iterations. -/
theorem C1_final_itr_least_multiple (cfg : Config) (master : Bool)
    (hd : 0 < cfg.num_devices) (ht : 0 < cfg.total_steps) :
    ((runLoop cfg master initStateDict).1.itr % cfg.num_devices = 0 ∧
      cfg.total_steps ≤ (runLoop cfg master initStateDict).1.itr ∧
      (∀ m : Nat, m % cfg.num_devices = 0 → cfg.total_steps ≤ m →
        (runLoop cfg master initStateDict).1.itr ≤ m)) ∧
    ((runLoop cfgFresh true initStateDict).1.itr = 12 ∧
      countTrainSteps (runLoop cfgFresh true initStateDict).2 = 3) := by
  have hmod := runLoop_itr_mod cfg master initStateDict
  have hge := runLoop_itr_ge cfg master initStateDict hd
  refine ⟨⟨?_, ?_, ?_⟩, ?_⟩
  · simpa [initStateDict] using hmod
  · rcases hge with h | ⟨_, hn⟩
    · exact h
    · exact absurd ht (by simpa [initStateDict] using hn)
  · intro m hm ht'
    refine runLoop_itr_min cfg master initStateDict m (Nat.zero_le m) ?_ ht'
    simpa [initStateDict] using Nat.dvd_of_mod_eq_zero hm
  · have h1 := runLoop_itr_mod cfgFresh true initStateDict
    have h2 := runLoop_itr_ge cfgFresh true initStateDict (by decide)
    have h3 := runLoop_itr_min cfgFresh true initStateDict 12 (by decide) (by decide) (by decide)
    have h4 := runLoop_itr_count cfgFresh true initStateDict
    have e1 : cfgFresh.num_devices = 4 := rfl
    have e2 : cfgFresh.total_steps = 10 := rfl
    have e3 : initStateDict.itr = 0 := rfl
    rw [e1, e3] at h1
    rw [e2] at h2
    rw [e1, e3] at h4
    rcases h2 with h2 | ⟨_, hn⟩
    · omega
    · rw [e3] at hn
      omega

/-- Witness for C1: the hypotheses hold and the conclusion is realized at the
concrete configuration with `total_steps = 10` and `num_devices = 4`. -/
theorem C1_witness :
    0 < cfgFresh.num_devices ∧ 0 < cfgFresh.total_steps ∧
    (((runLoop cfgFresh true initStateDict).1.itr % cfgFresh.num_devices = 0 ∧
      cfgFresh.total_steps ≤ (runLoop cfgFresh true initStateDict).1.itr ∧
      (∀ m : Nat, m % cfgFresh.num_devices = 0 → cfgFresh.total_steps ≤ m →
        (runLoop cfgFresh true initStateDict).1.itr ≤ m)) ∧
    ((runLoop cfgFresh true initStateDict).1.itr = 12 ∧
      countTrainSteps (runLoop cfgFresh true initStateDict).2 = 3)) :=
  ⟨by decide, by decide, C1_final_itr_least_multiple cfgFresh true (by decide) (by decide)⟩

/-- C2: in every inner iteration, the iteration counter is advanced by
`num_devices` strictly before the training step function is invoked: the
iteration's trace starts with the increment followed by the training-step
call, both under the already-advanced counter, and no other training-step
call occurs in the iteration. -/
theorem C2_itr_advanced_before_train (cfg : Config) (master : Bool) (st : StateDict) :
    ∃ rest : List Event,
      (innerBody cfg master st).2 =
        .incItr (st.itr + cfg.num_devices) :: .trainStep (st.itr + cfg.num_devices) :: rest ∧
      ∀ n : Nat, Event.trainStep n ∉ rest := by
  simp only [innerBody]
  split_ifs <;> simp_all

/-- C3: the iteration counter is monotonically non-decreasing across the
whole training loop, and every mutation of it advances it by exactly
`num_devices`: the inner body's single update adds `num_devices`, and the
successive counter values along the loop's trace each exceed the previous by
exactly `num_devices`. -/
theorem C3_itr_monotone_exact_increments (cfg : Config) (master : Bool) (st : StateDict) :
    (innerBody cfg master st).1.itr = st.itr + cfg.num_devices ∧
    List.Chain' (fun a c => c = a + cfg.num_devices)
      (st.itr :: itrValues (runLoop cfg master st).2) ∧
    st.itr ≤ (runLoop cfg master st).1.itr :=
  ⟨innerBody_fst_itr cfg master st, runLoop_chain cfg master st,
    runLoop_itr_mono cfg master st⟩


/-- Inversion of a successful pre-loop phase: the fresh-run state dictionary,
the loader batch size and the generator sampling batch size it produced. -/
theorem runPrelude_ok_elim (imsize : String → Option Nat) (nclass : String → Option Nat)
    (activation : String → Option Unit) (loaded : StateDict) (cfg : Config) (p : Prepared)
    (h : runPrelude imsize nclass activation loaded cfg = .ok p) :
    (cfg.resume = false → p.state_dict = initStateDict) ∧
    p.D_batch_size = cfg.batch_size * cfg.num_D_steps * cfg.num_D_accumulations ∧
    p.G_batch_size = max cfg.G_batch_size cfg.batch_size := by
  cases h1 : imsize cfg.dataset with
  | none => simp [runPrelude, h1] at h
  | some r =>
    cases h2 : nclass cfg.dataset with
    | none => simp [runPrelude, h1, h2] at h
    | some nc =>
      cases h3 : activation cfg.G_nl with
      | none => simp [runPrelude, h1, h2, h3] at h
      | some g =>
        cases h4 : activation cfg.D_nl with
        | none => simp [runPrelude, h1, h2, h3, h4] at h
        | some d =>
          cases hres : cfg.resume with
          | false =>
            simp only [runPrelude, h1, h2, h3, h4, hres, Bool.false_eq_true, if_false] at h
            split at h
            · simp at h
            split at h
            · simp at h
            split at h
            · simp at h
            injection h with h
            subst h
            exact ⟨fun _ => rfl, rfl, rfl⟩
          | true =>
            simp only [runPrelude, h1, h2, h3, h4, hres, if_true] at h
            split at h
            · simp at h
            split at h
            · simp at h
            split at h
            · simp at h
            injection h with h
            subst h
            refine ⟨fun hf => ?_, rfl, rfl⟩
            simp at hf

/-- C4 counterexample: on a fresh run the state dictionary is not zero-valued:
its best-FID bookmark starts at 999999, not 0 (train.py line 112). -/
theorem C4_counterexample :
    preludeBestFID (runPrelude imsizeTable nclassTable activationTable initStateDict cfgFresh)
      = some 999999 ∧ (999999 : Nat) ≠ 0 :=
  ⟨rfl, by decide⟩

/-- C4 (amended): on a fresh (non-resume) run that passes the pre-loop phase,
the state dictionary starts with iteration count, both save counters and the
best-IS bookmark at zero, and the best-FID bookmark at the sentinel 999999
(FID is lower-is-better, so its bookmark starts high, not at zero). -/
theorem C4_fresh_state_dict (imsize : String → Option Nat) (nclass : String → Option Nat)
    (activation : String → Option Unit) (loaded : StateDict) (cfg : Config) (p : Prepared)
    (hres : cfg.resume = false)
    (h : runPrelude imsize nclass activation loaded cfg = .ok p) :
    p.state_dict.itr = 0 ∧ p.state_dict.save_num = 0 ∧ p.state_dict.save_best_num = 0 ∧
    p.state_dict.best_IS = 0 ∧ p.state_dict.best_FID = 999999 := by
  have hsd := (runPrelude_ok_elim imsize nclass activation loaded cfg p h).1 hres
  rw [hsd]
  exact ⟨rfl, rfl, rfl, rfl, rfl⟩

/-- Witness for C4 (amended) at the sample fresh configuration. -/
theorem C4_witness :
    cfgFresh.resume = false ∧
    runPrelude imsizeTable nclassTable activationTable initStateDict cfgFresh
      = .ok preparedFresh ∧
    (preparedFresh.state_dict.itr = 0 ∧ preparedFresh.state_dict.save_num = 0 ∧
      preparedFresh.state_dict.save_best_num = 0 ∧ preparedFresh.state_dict.best_IS = 0 ∧
      preparedFresh.state_dict.best_FID = 999999) :=
  ⟨rfl, rfl, C4_fresh_state_dict imsizeTable nclassTable activationTable initStateDict
    cfgFresh preparedFresh rfl rfl⟩

/-- C5: for every configuration whose dataset identifier or activation
identifier is unrecognized by the lookup tables, `run` fails with the
configuration error during derived-configuration resolution, before the
training loop (the returned value carries no loop trace). -/
theorem C5_unrecognized_identifier_fails (imsize : String → Option Nat)
    (nclass : String → Option Nat) (activation : String → Option Unit)
    (loaded : StateDict) (master : Bool) (cfg : Config)
    (h : imsize cfg.dataset = none ∨ nclass cfg.dataset = none ∨
         activation cfg.G_nl = none ∨ activation cfg.D_nl = none) :
    run imsize nclass activation loaded master cfg = .error .configError := by
  cases h1 : imsize cfg.dataset <;> cases h2 : nclass cfg.dataset <;>
    cases h3 : activation cfg.G_nl <;> cases h4 : activation cfg.D_nl <;>
    simp_all [run, runPrelude]

/-- Witness for C5 at a configuration with an unrecognized dataset. -/
theorem C5_witness :
    imsizeTable cfgBadDataset.dataset = none ∧
    run imsizeTable nclassTable activationTable initStateDict true cfgBadDataset =
      .error .configError :=
  ⟨rfl, C5_unrecognized_identifier_fails imsizeTable nclassTable activationTable
    initStateDict true cfgBadDataset (Or.inl rfl)⟩

/-- C6: the batch size requested from the data loader equals
`batch_size * num_D_steps * num_D_accumulations` whenever the pre-loop phase
completes. -/
theorem C6_loader_batch_size (imsize : String → Option Nat) (nclass : String → Option Nat)
    (activation : String → Option Unit) (loaded : StateDict) (cfg : Config) (p : Prepared)
    (h : runPrelude imsize nclass activation loaded cfg = .ok p) :
    p.D_batch_size = cfg.batch_size * cfg.num_D_steps * cfg.num_D_accumulations :=
  (runPrelude_ok_elim imsize nclass activation loaded cfg p h).2.1

/-- Witness for C6 at the sample fresh configuration: `16 * 2 * 3 = 96`. -/
theorem C6_witness :
    runPrelude imsizeTable nclassTable activationTable initStateDict cfgFresh
      = .ok preparedFresh ∧
    preparedFresh.D_batch_size =
      cfgFresh.batch_size * cfgFresh.num_D_steps * cfgFresh.num_D_accumulations :=
  ⟨rfl, C6_loader_batch_size imsizeTable nclassTable activationTable initStateDict
    cfgFresh preparedFresh rfl⟩

/-- C7: on a non-coordinating device (`xm.is_master_ordinal()` false), an
inner loop iteration performs no training-log write: neither the per-step
metrics write nor the singular-value write appears in its trace. -/
theorem C7_non_master_no_log (cfg : Config) (st : StateDict) (n : Nat) :
    Event.logTrain n ∉ (innerBody cfg false st).2 ∧
    Event.logSV n ∉ (innerBody cfg false st).2 := by
  simp only [innerBody]
  split_ifs <;> simp_all

/-- C8: an inner iteration records singular-value diagnostics if and only if
`sv_log_interval > 0`, the current (already advanced) iteration count is an
exact multiple of it, and the device is the coordinating one; with
`sv_log_interval = 0` they are never recorded. -/
theorem C8_sv_log_iff (cfg : Config) (master : Bool) (st : StateDict) :
    ((∃ n : Nat, Event.logSV n ∈ (innerBody cfg master st).2) ↔
      (0 < cfg.sv_log_interval ∧ (st.itr + cfg.num_devices) % cfg.sv_log_interval = 0 ∧
        master = true)) ∧
    (cfg.sv_log_interval = 0 → ∀ n : Nat, Event.logSV n ∉ (innerBody cfg master st).2) := by
  constructor
  · simp only [innerBody]
    split_ifs <;> simp_all
  · intro h0 n
    simp only [innerBody]
    split_ifs <;> simp_all

/-- C9 counterexample: the claim quantifies over every configuration with a
non-multiple interval, but a configuration whose dataset identifier is also
unrecognized fails with the configuration error of line 51, not an assertion
error (the lookups at lines 51-54 run before the asserts at lines 61-62); and
a configuration with `num_devices = 0` (so that `save_every = 5` is not a
multiple of it) fails with `ZeroDivisionError` from `% 0`, not an assertion
error. -/
theorem C9_counterexample :
    (cfgBadBoth.save_every % cfgBadBoth.num_devices ≠ 0) ∧
    run imsizeTable nclassTable activationTable initStateDict true cfgBadBoth =
      .error .configError ∧
    RunError.configError ≠ RunError.assertionError ∧
    (¬ (cfgZeroDev.num_devices ∣ cfgZeroDev.save_every)) ∧
    run imsizeTable nclassTable activationTable initStateDict true cfgZeroDev =
      .error .zeroDivisionError ∧
    RunError.zeroDivisionError ≠ RunError.assertionError :=
  ⟨by decide, rfl, by decide, by decide, rfl, by decide⟩

/-- C9 (amended): for every configuration whose identifier lookups succeed and
with `num_devices > 0`: if `save_every` or `test_every` is not an exact
multiple of `num_devices`, `run` fails with an assertion error before the
training loop; if both are multiples, the assertions pass and the pre-loop
phase completes. -/
theorem C9_assert_multiples (imsize : String → Option Nat) (nclass : String → Option Nat)
    (activation : String → Option Unit) (loaded : StateDict) (master : Bool) (cfg : Config)
    (h1 : (imsize cfg.dataset).isSome = true) (h2 : (nclass cfg.dataset).isSome = true)
    (h3 : (activation cfg.G_nl).isSome = true) (h4 : (activation cfg.D_nl).isSome = true)
    (hd : 0 < cfg.num_devices) :
    (¬(cfg.save_every % cfg.num_devices = 0 ∧ cfg.test_every % cfg.num_devices = 0) →
       run imsize nclass activation loaded master cfg = .error .assertionError) ∧
    (cfg.save_every % cfg.num_devices = 0 → cfg.test_every % cfg.num_devices = 0 →
       ∃ p : Prepared, runPrelude imsize nclass activation loaded cfg = .ok p) := by
  obtain ⟨r, hr⟩ := Option.isSome_iff_exists.mp h1
  obtain ⟨nc, hnc⟩ := Option.isSome_iff_exists.mp h2
  obtain ⟨g, hg⟩ := Option.isSome_iff_exists.mp h3
  obtain ⟨dv, hdv⟩ := Option.isSome_iff_exists.mp h4
  have hnz : ¬(cfg.num_devices = 0) := by omega
  constructor
  · intro hne
    cases hres : cfg.resume with
    | false =>
      simp only [run, runPrelude, hr, hnc, hg, hdv, hres, Bool.false_eq_true, if_false]
      rw [if_neg hnz]
      by_cases hs : cfg.save_every % cfg.num_devices = 0
      · rw [if_neg (by simp [hs])]
        rw [if_pos (fun hq => hne ⟨hs, hq⟩)]
      · rw [if_pos hs]
    | true =>
      simp only [run, runPrelude, hr, hnc, hg, hdv, hres, if_true]
      rw [if_neg hnz]
      by_cases hs : cfg.save_every % cfg.num_devices = 0
      · rw [if_neg (by simp [hs])]
        rw [if_pos (fun hq => hne ⟨hs, hq⟩)]
      · rw [if_pos hs]
  · intro hs htt
    cases hres : cfg.resume with
    | false =>
      simp only [runPrelude, hr, hnc, hg, hdv, hres, Bool.false_eq_true, if_false]
      rw [if_neg hnz, if_neg (by simp [hs]), if_neg (by simp [htt])]
      exact ⟨_, rfl⟩
    | true =>
      simp only [runPrelude, hr, hnc, hg, hdv, hres, if_true]
      rw [if_neg hnz, if_neg (by simp [hs]), if_neg (by simp [htt])]
      exact ⟨_, rfl⟩

/-- Witness for C9 (amended) at a recognized configuration whose `save_every`
(10) is not a multiple of `num_devices` (4). -/
theorem C9_witness :
    (imsizeTable cfgAssertBad.dataset).isSome = true ∧
    (nclassTable cfgAssertBad.dataset).isSome = true ∧
    (activationTable cfgAssertBad.G_nl).isSome = true ∧
    (activationTable cfgAssertBad.D_nl).isSome = true ∧
    0 < cfgAssertBad.num_devices ∧
    ((¬(cfgAssertBad.save_every % cfgAssertBad.num_devices = 0 ∧
        cfgAssertBad.test_every % cfgAssertBad.num_devices = 0) →
       run imsizeTable nclassTable activationTable initStateDict true cfgAssertBad =
         .error .assertionError) ∧
     (cfgAssertBad.save_every % cfgAssertBad.num_devices = 0 →
      cfgAssertBad.test_every % cfgAssertBad.num_devices = 0 →
       ∃ p : Prepared,
         runPrelude imsizeTable nclassTable activationTable initStateDict cfgAssertBad
           = .ok p)) :=
  ⟨rfl, rfl, rfl, rfl, by decide,
    C9_assert_multiples imsizeTable nclassTable activationTable initStateDict true
      cfgAssertBad rfl rfl rfl rfl (by decide)⟩

/-- C10: the generator sampling batch size equals
`max G_batch_size batch_size`; in particular a `G_batch_size` below
`batch_size` is ignored and the discriminator batch size is used. -/
theorem C10_sample_batch_size (imsize : String → Option Nat) (nclass : String → Option Nat)
    (activation : String → Option Unit) (loaded : StateDict) (cfg : Config) (p : Prepared)
    (h : runPrelude imsize nclass activation loaded cfg = .ok p) :
    p.G_batch_size = max cfg.G_batch_size cfg.batch_size ∧
    (cfg.G_batch_size < cfg.batch_size → p.G_batch_size = cfg.batch_size) := by
  have hg := (runPrelude_ok_elim imsize nclass activation loaded cfg p h).2.2
  exact ⟨hg, fun hlt => by rw [hg]; exact max_eq_right (Nat.le_of_lt hlt)⟩

/-- Witness for C10 at the sample fresh configuration, where
`G_batch_size = 8 < 16 = batch_size` and the sampling batch size is 16. -/
theorem C10_witness :
    runPrelude imsizeTable nclassTable activationTable initStateDict cfgFresh
      = .ok preparedFresh ∧
    cfgFresh.G_batch_size < cfgFresh.batch_size ∧
    (preparedFresh.G_batch_size = max cfgFresh.G_batch_size cfgFresh.batch_size ∧
      (cfgFresh.G_batch_size < cfgFresh.batch_size →
        preparedFresh.G_batch_size = cfgFresh.batch_size)) :=
  ⟨rfl, by decide, C10_sample_batch_size imsizeTable nclassTable activationTable
    initStateDict cfgFresh preparedFresh rfl⟩

end CelebaTrain
